import Mathlib

/-!
Shallow embedding of the credential/session lifecycle of the koa_boilerplate
repository. The authoritative source is `src/services/authService.js`
(provided as `src/unnamed/part_003`): `AuthService.generateToken`,
`AuthService.verifyToken`, `AuthService.register`, `AuthService.login`,
`AuthService.getUserById`. The Sequelize `User` model
(`src/models/User.js`) and the `jsonwebtoken` library are not among the
provided sources; the parts of their behaviour the service relies on
(password hashing and comparison, the JSON projection, creation defaults,
token signing and verification) are modelled from the specification and
marked `Modelled from the spec:` below.

Times are natural numbers (an abstract clock); user ids are natural
numbers generated by the store at creation; emails, passwords and secrets
are strings. JavaScript exceptions become `Except` values, and each
store-mutating operation returns its post-state explicitly (a thrown
exception aborts before any write, so the post-state on error is the
input store, exactly as in the JavaScript control flow).
-/

namespace KoaAuth

/-- Modelled from the spec: the one-way salted password hash applied by
the missing `User` model (`src/models/User.js`) when a user is created
("passwordHash: derived from plaintext password via a one-way salted hash
function", bcrypt per the README). The embedding keeps what the claims
need: a deterministic injective encoding of the plaintext. -/
def hashPassword (password : String) : String :=
  "bcrypt$" ++ password

/-- Modelled from the spec: `user.comparePassword(password)` of the missing
`User` model checks the supplied password against the stored hash
("Compare supplied password against stored hash"). -/
def comparePassword (password stored : String) : Bool :=
  hashPassword password == stored

/-- A `User` row of the Credential Store (spec section 3 and the README
Users-table schema: id, email, password hash, names, isActive, lastLogin,
createdAt, updatedAt). -/
structure User where
  id : Nat
  email : String
  passwordHash : String
  firstName : Option String
  lastName : Option String
  isActive : Bool
  lastLogin : Option Nat
  createdAt : Nat
  updatedAt : Nat
deriving Repr, DecidableEq

/-- Modelled from the spec: the projection returned by `user.toJSON()` of
the missing `User` model — "a user record view with sensitive fields
(password hash) removed". It has every `User` field except
`passwordHash`. -/
structure UserJSON where
  id : Nat
  email : String
  firstName : Option String
  lastName : Option String
  isActive : Bool
  lastLogin : Option Nat
  createdAt : Nat
  updatedAt : Nat
deriving Repr, DecidableEq

/-- Modelled from the spec: `user.toJSON()` keeps every field of the row
except the password hash. -/
def User.toJSON (u : User) : UserJSON :=
  { id := u.id, email := u.email, firstName := u.firstName,
    lastName := u.lastName, isActive := u.isActive,
    lastLogin := u.lastLogin, createdAt := u.createdAt,
    updatedAt := u.updatedAt }

/-- The claims a verified session token yields: spec 4.1,
`verify(token)` returns the id and the email and nothing else. -/
structure Claims where
  id : Nat
  email : String
deriving Repr, DecidableEq

/-- The payload a signed token carries: the `id`/`email` claims plus
issued-at and expiry instants (spec 3, "a signed assertion of id and email
plus an expiration instant"). -/
structure TokenPayload where
  id : Nat
  email : String
  iat : Nat
  exp : Nat
deriving Repr, DecidableEq

/-- Modelled from the spec: the signature over a payload under a shared
secret, as a deterministic encoding of secret and payload. -/
def signPayload (secret : String) (p : TokenPayload) : String :=
  secret ++ "." ++ toString p.id ++ "." ++ p.email ++ "." ++
    toString p.iat ++ "." ++ toString p.exp

/-- A token input to verification: either the three-segment signed
structure (payload plus signature segment) or a malformed string that does
not parse as such. -/
inductive Token where
  | signed (payload : TokenPayload) (sig : String)
  | malformed (raw : String)
deriving Repr, DecidableEq

/-- The environment-configurable token parameters: signing secret
(`JWT_SECRET`) and token lifetime (`JWT_EXPIRES_IN`). -/
structure Config where
  secret : String
  lifetime : Nat
deriving Repr, DecidableEq

/-- The distinct low-level failures of token verification (bad signature,
malformed structure, elapsed lifetime), before the service collapses
them. -/
inductive JwtError where
  | badSignature
  | malformedStructure
  | expired
deriving Repr, DecidableEq

/-- Modelled from the spec: `jwt.sign(payload, secret, expiresIn)` —
"Deterministically encodes the id and email plus issued-at and expiry
(configurable lifetime) into a compact signed string using a shared
secret key". -/
def jwtSign (cfg : Config) (id : Nat) (email : String) (now : Nat) : Token :=
  let p : TokenPayload :=
    { id := id, email := email, iat := now, exp := now + cfg.lifetime }
  Token.signed p (signPayload cfg.secret p)

/-- Modelled from the spec: `jwt.verify(token, secret)` — "Decodes and
checks the signature and expiry. Fails if the signature does not match,
the structure is malformed, or the token has expired. Never partially
trusts an unverified payload." A token whose lifetime has elapsed
(clock at or past `exp`) is expired. -/
def jwtVerify (cfg : Config) (t : Token) (now : Nat) : Except JwtError Claims :=
  match t with
  | Token.malformed _ => Except.error JwtError.malformedStructure
  | Token.signed p s =>
    if s = signPayload cfg.secret p then
      if p.exp ≤ now then Except.error JwtError.expired
      else Except.ok { id := p.id, email := p.email }
    else Except.error JwtError.badSignature

/-- The expected failure modes of the Session Service (spec section 7). -/
inductive AuthError where
  | duplicateAccount
  | invalidCredentials
  | accountDisabled
  | userNotFound
  | invalidOrExpiredToken
deriving Repr, DecidableEq

/-- The human-readable message of each failure, as thrown by
`authService.js`. -/
def AuthError.message : AuthError → String
  | AuthError.duplicateAccount => "User with this email already exists"
  | AuthError.invalidCredentials => "Invalid credentials"
  | AuthError.accountDisabled => "Account is disabled"
  | AuthError.userNotFound => "User not found"
  | AuthError.invalidOrExpiredToken => "Invalid or expired token"

/-- The Credential Store: the list of user rows in insertion order, plus
the next fresh id the store will assign at creation. -/
structure Store where
  users : List User
  nextId : Nat
deriving Repr, DecidableEq

/-- `User.findOne(where email)` — the first row whose email matches. -/
def Store.findUserByEmail (s : Store) (email : String) : Option User :=
  s.users.find? (fun u => u.email == email)

/-- `User.findByPk(id)` — the first row whose primary key matches. -/
def Store.findByPk (s : Store) (id : Nat) : Option User :=
  s.users.find? (fun u => u.id == id)

/-- Modelled from the spec: `User.create` of the missing `User` model —
persists a new row whose password is hashed by the model hook, with
`isActive` defaulting to true, a fresh id, no `lastLogin` yet, and
lifecycle timestamps set by the store. -/
def Store.createUser (s : Store) (email password : String)
    (firstName lastName : Option String) (now : Nat) : User × Store :=
  let u : User :=
    { id := s.nextId, email := email,
      passwordHash := hashPassword password,
      firstName := firstName, lastName := lastName,
      isActive := true, lastLogin := none,
      createdAt := now, updatedAt := now }
  (u, { users := s.users ++ [u], nextId := s.nextId + 1 })

/-- `user.update(lastLogin)` — persists a new `lastLogin` on the row with
the given primary key; the store also refreshes `updatedAt`. -/
def Store.updateLastLogin (s : Store) (uid now : Nat) : Store :=
  { s with users := s.users.map (fun v =>
      if v.id == uid then { v with lastLogin := some now, updatedAt := now }
      else v) }

/-- The emails of the store's rows, in row order. -/
def Store.emails (s : Store) : List String :=
  s.users.map User.email

/-- The store invariant: no two rows share an email. -/
abbrev Store.emailsUnique (s : Store) : Prop :=
  s.emails.Nodup

/-- `AuthService.generateToken(user)` (authService.js lines 14-23): signs
the payload of the user's id and email with the configured secret and
lifetime. -/
def AuthService.generateToken (cfg : Config) (user : User) (now : Nat) : Token :=
  jwtSign cfg user.id user.email now

/-- `AuthService.verifyToken(token)` (authService.js lines 30-36):
delegates to `jwt.verify` and maps any failure whatsoever to the single
error `Invalid or expired token`. -/
def AuthService.verifyToken (cfg : Config) (t : Token) (now : Nat) :
    Except AuthError Claims :=
  match jwtVerify cfg t now with
  | Except.ok c => Except.ok c
  | Except.error _ => Except.error AuthError.invalidOrExpiredToken

/-- The spec's `verifySession` is the service's `verifyToken`. -/
def AuthService.verifySession (cfg : Config) (t : Token) (now : Nat) :
    Except AuthError Claims :=
  AuthService.verifyToken cfg t now

/-- `AuthService.register(userData)` (authService.js lines 43-67): fail
with the duplicate-account error when a row with the email exists,
otherwise create the row, issue a token for it and return the projection
plus the token. The second component is the post-state of the store. -/
def AuthService.register (cfg : Config) (s : Store) (email password : String)
    (firstName lastName : Option String) (now : Nat) :
    Except AuthError (UserJSON × Token) × Store :=
  match s.findUserByEmail email with
  | some _ => (Except.error AuthError.duplicateAccount, s)
  | none =>
    let r := s.createUser email password firstName lastName now
    (Except.ok (r.1.toJSON, AuthService.generateToken cfg r.1 now), r.2)

/-- `AuthService.login(email, password)` (authService.js lines 75-103):
unknown email fails with invalid credentials; a disabled account fails
next; a password mismatch fails with invalid credentials; on success the
row's `lastLogin` is persisted and the projection of the updated row plus
a fresh token are returned. The second component is the post-state. -/
def AuthService.login (cfg : Config) (s : Store) (email password : String)
    (now : Nat) : Except AuthError (UserJSON × Token) × Store :=
  match s.findUserByEmail email with
  | none => (Except.error AuthError.invalidCredentials, s)
  | some u =>
    if !u.isActive then (Except.error AuthError.accountDisabled, s)
    else if !(comparePassword password u.passwordHash) then
      (Except.error AuthError.invalidCredentials, s)
    else
      let u1 : User := { u with lastLogin := some now, updatedAt := now }
      (Except.ok (u1.toJSON, AuthService.generateToken cfg u1 now),
        s.updateLastLogin u.id now)

/-- `AuthService.getUserById(userId)` (authService.js lines 110-117):
unknown id fails with the user-not-found error; a known id returns the
projection. The second component is the (unchanged) post-state. -/
def AuthService.getUserById (s : Store) (uid : Nat) :
    Except AuthError UserJSON × Store :=
  match s.findByPk uid with
  | none => (Except.error AuthError.userNotFound, s)
  | some u => (Except.ok u.toJSON, s)

/-- Sample configuration for concrete witnesses. -/
def sampleConfig : Config :=
  { secret := "secret-key", lifetime := 86400 }

/-- Sample active registered user for concrete witnesses. -/
def alice : User :=
  { id := 1, email := "alice@example.com",
    passwordHash := hashPassword ("secret1"),
    firstName := some ("Alice"), lastName := none,
    isActive := true, lastLogin := none, createdAt := 0, updatedAt := 0 }

/-- Sample disabled user for concrete witnesses. -/
def bob : User :=
  { id := 2, email := "bob@example.com",
    passwordHash := hashPassword ("secret2"),
    firstName := none, lastName := none,
    isActive := false, lastLogin := none, createdAt := 0, updatedAt := 0 }

/-- Sample store holding the two sample users. -/
def sampleStore : Store :=
  { users := [alice, bob], nextId := 3 }

/-- C1: token round-trip — for every configuration with a positive
lifetime, every user and every issuance instant, verifying the token
produced by `generateToken` at that instant succeeds and returns the
claims record, a structure holding exactly the id and the email and no
other field, with the id and email used at issuance. -/
theorem token_roundtrip (cfg : Config) (u : User) (now : Nat)
    (h : 0 < cfg.lifetime) :
    AuthService.verifyToken cfg (AuthService.generateToken cfg u now) now
      = Except.ok { id := u.id, email := u.email } := by
  have hexp : ¬ (now + cfg.lifetime ≤ now) := by omega
  simp [AuthService.verifyToken, AuthService.generateToken, jwtVerify,
    jwtSign, hexp]

/-- Witness for C1 at a concrete configuration, user and instant. -/
theorem token_roundtrip_witness :
    AuthService.verifyToken sampleConfig
        (AuthService.generateToken sampleConfig alice 5) 5
      = Except.ok { id := alice.id, email := alice.email } :=
  token_roundtrip sampleConfig alice 5 (by decide)

/-- C2: credential-failure indistinguishability — login with an email
matching no row and login with the email of an active row whose stored
hash the supplied password does not match both evaluate to the very same
outcome: the invalid-credentials error, whose message is the string
`Invalid credentials`, with the store unchanged. -/
theorem login_failures_indistinguishable (cfg : Config) (s : Store)
    (emailA passwordA emailB passwordB : String) (u : User) (now : Nat)
    (hA : s.findUserByEmail emailA = none)
    (hB : s.findUserByEmail emailB = some u)
    (hact : u.isActive = true)
    (hpw : comparePassword passwordB u.passwordHash = false) :
    AuthService.login cfg s emailA passwordA now
        = (Except.error AuthError.invalidCredentials, s)
      ∧ AuthService.login cfg s emailB passwordB now
        = (Except.error AuthError.invalidCredentials, s)
      ∧ AuthError.message AuthError.invalidCredentials
        = "Invalid credentials" := by
  refine ⟨?_, ?_, rfl⟩
  · simp [AuthService.login, hA]
  · simp [AuthService.login, hB, hact, hpw]

/-- Witness for C2: unknown email versus Alice's email with a wrong
password, on the sample store. -/
theorem login_failures_indistinguishable_witness :
    AuthService.login sampleConfig sampleStore ("nobody@example.com")
        "whatever" 7
        = (Except.error AuthError.invalidCredentials, sampleStore)
      ∧ AuthService.login sampleConfig sampleStore ("alice@example.com")
        "wrong-password" 7
        = (Except.error AuthError.invalidCredentials, sampleStore)
      ∧ AuthError.message AuthError.invalidCredentials
        = "Invalid credentials" :=
  login_failures_indistinguishable sampleConfig sampleStore
    "nobody@example.com" "whatever" "alice@example.com" "wrong-password"
    alice 7 (by decide) (by decide) (by decide) (by decide)

/-- C3: duplicate registration — whenever some row already has the email,
`register` fails with the duplicate-account error for every password
value, and the post-state of the store is the input store: no row is
created. -/
theorem register_duplicate_email (cfg : Config) (s : Store)
    (email password : String) (firstName lastName : Option String)
    (u : User) (now : Nat)
    (h : s.findUserByEmail email = some u) :
    AuthService.register cfg s email password firstName lastName now
      = (Except.error AuthError.duplicateAccount, s) := by
  simp [AuthService.register, h]

/-- Witness for C3: re-registering Alice's email on the sample store. -/
theorem register_duplicate_email_witness :
    AuthService.register sampleConfig sampleStore ("alice@example.com")
        "another-password" none none 7
      = (Except.error AuthError.duplicateAccount, sampleStore) :=
  register_duplicate_email sampleConfig sampleStore ("alice@example.com")
    "another-password" none none alice 7 (by decide)

set_option linter.unusedVariables false in
/-- C4: disabled account — when the row found by email has
`isActive = false`, login fails with the account-disabled error even
though the supplied password matches the stored hash, and the post-state
of the store (its rows, so in particular every `lastLogin`) is the input
store. -/
theorem login_disabled_account (cfg : Config) (s : Store)
    (email password : String) (u : User) (now : Nat)
    (hB : s.findUserByEmail email = some u)
    (hina : u.isActive = false)
    (hpw : comparePassword password u.passwordHash = true) :
    AuthService.login cfg s email password now
      = (Except.error AuthError.accountDisabled, s) := by
  simp [AuthService.login, hB, hina]

/-- Witness for C4: Bob is disabled; login with his correct password. -/
theorem login_disabled_account_witness :
    AuthService.login sampleConfig sampleStore ("bob@example.com")
        "secret2" 7
      = (Except.error AuthError.accountDisabled, sampleStore) :=
  login_disabled_account sampleConfig sampleStore ("bob@example.com")
    "secret2" bob 7 (by decide) (by decide) (by decide)

/-- C5: uniform token-failure reporting — whenever the underlying codec
fails on a token (bad signature, malformed structure or elapsed
lifetime), `verifyToken` reports the single invalid-or-expired error; in
particular a token whose configured lifetime has elapsed by the checking
instant fails with exactly that error, and its outcome equals the
outcome on a malformed token. -/
theorem verify_failure_uniform (cfg : Config) (t : Token) (now : Nat)
    (e : JwtError) (id : Nat) (email raw : String)
    (issuedAt checkedAt : Nat)
    (h : jwtVerify cfg t now = Except.error e)
    (hexp : issuedAt + cfg.lifetime ≤ checkedAt) :
    AuthService.verifyToken cfg t now
        = Except.error AuthError.invalidOrExpiredToken
      ∧ AuthService.verifyToken cfg (jwtSign cfg id email issuedAt)
          checkedAt
        = Except.error AuthError.invalidOrExpiredToken
      ∧ AuthService.verifyToken cfg (jwtSign cfg id email issuedAt)
          checkedAt
        = AuthService.verifyToken cfg (Token.malformed raw) checkedAt := by
  have hx :
      AuthService.verifyToken cfg (jwtSign cfg id email issuedAt) checkedAt
        = Except.error AuthError.invalidOrExpiredToken := by
    simp [AuthService.verifyToken, jwtVerify, jwtSign, hexp]
  refine ⟨?_, hx, ?_⟩
  · simp [AuthService.verifyToken, h]
  · rw [hx]
    simp [AuthService.verifyToken, jwtVerify]

/-- Witness for C5: a malformed token, and a token issued at instant 0
checked one step after its lifetime elapsed. -/
theorem verify_failure_uniform_witness :
    AuthService.verifyToken sampleConfig (Token.malformed ("junk")) 3
        = Except.error AuthError.invalidOrExpiredToken
      ∧ AuthService.verifyToken sampleConfig
          (jwtSign sampleConfig 1 ("alice@example.com") 0) 86401
        = Except.error AuthError.invalidOrExpiredToken
      ∧ AuthService.verifyToken sampleConfig
          (jwtSign sampleConfig 1 ("alice@example.com") 0) 86401
        = AuthService.verifyToken sampleConfig (Token.malformed ("bad")) 86401 :=
  verify_failure_uniform sampleConfig (Token.malformed ("junk")) 3
    JwtError.malformedStructure 1 ("alice@example.com") ("bad") 0 86401
    rfl (by decide)

/-- C6: successful registration — when no row has the email, `register`
succeeds; the post-state appends exactly one row, carrying the hashed
password, `isActive = true` and no `lastLogin`; the returned projection
is that row minus the password hash (every other field listed, no hash
field present); and the returned token is signed for the new row's id and
email. -/
theorem register_success (cfg : Config) (s : Store)
    (email password : String) (firstName lastName : Option String)
    (now : Nat)
    (h : s.findUserByEmail email = none) :
    AuthService.register cfg s email password firstName lastName now
      = (Except.ok
          ({ id := s.nextId, email := email, firstName := firstName,
             lastName := lastName, isActive := true, lastLogin := none,
             createdAt := now, updatedAt := now },
           jwtSign cfg s.nextId email now),
         { users := s.users ++
             [{ id := s.nextId, email := email,
                passwordHash := hashPassword password,
                firstName := firstName, lastName := lastName,
                isActive := true, lastLogin := none,
                createdAt := now, updatedAt := now }],
           nextId := s.nextId + 1 }) := by
  simp [AuthService.register, Store.createUser, AuthService.generateToken,
    User.toJSON, h]

/-- Witness for C6: registering a fresh email on the sample store. -/
theorem register_success_witness :
    AuthService.register sampleConfig sampleStore ("carol@example.com")
        ("pw3") none none 9
      = (Except.ok
          ({ id := sampleStore.nextId, email := "carol@example.com",
             firstName := none, lastName := none, isActive := true,
             lastLogin := none, createdAt := 9, updatedAt := 9 },
           jwtSign sampleConfig sampleStore.nextId ("carol@example.com") 9),
         { users := sampleStore.users ++
             [{ id := sampleStore.nextId, email := "carol@example.com",
                passwordHash := hashPassword ("pw3"),
                firstName := none, lastName := none,
                isActive := true, lastLogin := none,
                createdAt := 9, updatedAt := 9 }],
           nextId := sampleStore.nextId + 1 }) :=
  register_success sampleConfig sampleStore ("carol@example.com") ("pw3")
    none none 9 (by decide)

/-- C7: login frame condition — for an active row found by email whose
stored hash the supplied password matches, login succeeds; the returned
projection equals the stored row with only `lastLogin` (and the
store-managed `updatedAt`) changed and the password hash removed; the
returned token is issued for that user's id and email; the post-state
maps only rows with the user's id to the `lastLogin`-updated row and
leaves every other row unchanged, as the last conjunct states for an
arbitrary other row. -/
theorem login_success_frame (cfg : Config) (s : Store)
    (email password : String) (u : User) (now : Nat) (v : User)
    (hB : s.findUserByEmail email = some u)
    (hact : u.isActive = true)
    (hpw : comparePassword password u.passwordHash = true)
    (hv : v ∈ s.users) (hne : v.id ≠ u.id) :
    AuthService.login cfg s email password now
      = (Except.ok
          ({ id := u.id, email := u.email, firstName := u.firstName,
             lastName := u.lastName, isActive := u.isActive,
             lastLogin := some now, createdAt := u.createdAt,
             updatedAt := now },
           AuthService.generateToken cfg u now),
         { users := s.users.map (fun w =>
             if w.id == u.id then
               { w with lastLogin := some now, updatedAt := now }
             else w),
           nextId := s.nextId })
      ∧ v ∈ (AuthService.login cfg s email password now).2.users := by
  have hmain :
      AuthService.login cfg s email password now
        = (Except.ok
            ({ id := u.id, email := u.email, firstName := u.firstName,
               lastName := u.lastName, isActive := u.isActive,
               lastLogin := some now, createdAt := u.createdAt,
               updatedAt := now },
             AuthService.generateToken cfg u now),
           { users := s.users.map (fun w =>
               if w.id == u.id then
                 { w with lastLogin := some now, updatedAt := now }
               else w),
             nextId := s.nextId }) := by
    simp [AuthService.login, hB, hact, hpw, User.toJSON,
      AuthService.generateToken, jwtSign, Store.updateLastLogin]
  refine ⟨hmain, ?_⟩
  rw [hmain]
  exact List.mem_map.mpr ⟨v, hv, by simp [hne]⟩

/-- Witness for C7: Alice logs in with her correct password on the sample
store; Bob's row is an unchanged other row. -/
theorem login_success_frame_witness :
    AuthService.login sampleConfig sampleStore ("alice@example.com")
        ("secret1") 11
      = (Except.ok
          ({ id := alice.id, email := alice.email,
             firstName := alice.firstName, lastName := alice.lastName,
             isActive := alice.isActive, lastLogin := some 11,
             createdAt := alice.createdAt, updatedAt := 11 },
           AuthService.generateToken sampleConfig alice 11),
         { users := sampleStore.users.map (fun w =>
             if w.id == alice.id then
               { w with lastLogin := some 11, updatedAt := 11 }
             else w),
           nextId := sampleStore.nextId })
      ∧ bob ∈ (AuthService.login sampleConfig sampleStore
          ("alice@example.com") ("secret1") 11).2.users :=
  login_success_frame sampleConfig sampleStore ("alice@example.com")
    ("secret1") alice 11 bob (by decide) (by decide) (by decide)
    (by decide) (by decide)

/-- C8: getUserById — an id matching no row fails with the user-not-found
error with the store unchanged; the id of a stored row returns the
projection whose fields all equal the stored record's (no password-hash
field exists on the projection), again with the store unchanged. -/
theorem getUserById_contract (s : Store) (goodId badId : Nat) (u : User)
    (hgood : s.findByPk goodId = some u)
    (hbad : s.findByPk badId = none) :
    AuthService.getUserById s badId
        = (Except.error AuthError.userNotFound, s)
      ∧ AuthService.getUserById s goodId
        = (Except.ok
            { id := u.id, email := u.email, firstName := u.firstName,
              lastName := u.lastName, isActive := u.isActive,
              lastLogin := u.lastLogin, createdAt := u.createdAt,
              updatedAt := u.updatedAt }, s) := by
  constructor
  · simp [AuthService.getUserById, hbad]
  · simp [AuthService.getUserById, hgood, User.toJSON]

/-- Witness for C8: id 1 is Alice; id 42 matches no row. -/
theorem getUserById_contract_witness :
    AuthService.getUserById sampleStore 42
        = (Except.error AuthError.userNotFound, sampleStore)
      ∧ AuthService.getUserById sampleStore 1
        = (Except.ok
            { id := alice.id, email := alice.email,
              firstName := alice.firstName, lastName := alice.lastName,
              isActive := alice.isActive, lastLogin := alice.lastLogin,
              createdAt := alice.createdAt,
              updatedAt := alice.updatedAt }, sampleStore) :=
  getUserById_contract sampleStore 1 42 alice (by decide) (by decide)

/-- C10: the disabled-account check precedes password verification — when
the row found by email is disabled, login fails with the account-disabled
error for an arbitrary supplied password, and that error differs from the
invalid-credentials error, so the failure reveals the account's
existence. -/
theorem login_disabled_for_any_password (cfg : Config) (s : Store)
    (email password : String) (u : User) (now : Nat)
    (hB : s.findUserByEmail email = some u)
    (hina : u.isActive = false) :
    AuthService.login cfg s email password now
        = (Except.error AuthError.accountDisabled, s)
      ∧ AuthError.accountDisabled ≠ AuthError.invalidCredentials :=
  ⟨by simp [AuthService.login, hB, hina], by decide⟩

/-- Witness for C10: Bob is disabled; a password that does not match his
hash still yields the account-disabled error. -/
theorem login_disabled_for_any_password_witness :
    AuthService.login sampleConfig sampleStore ("bob@example.com")
        ("not-his-password") 7
        = (Except.error AuthError.accountDisabled, sampleStore)
      ∧ AuthError.accountDisabled ≠ AuthError.invalidCredentials :=
  login_disabled_for_any_password sampleConfig sampleStore
    ("bob@example.com") ("not-his-password") bob 7 (by decide) (by decide)

/-- When no row matches an email, that email is not among the store's
emails. -/
theorem findUserByEmail_none_notMem (s : Store) (email : String)
    (h : s.findUserByEmail email = none) : email ∉ s.emails := by
  intro hmem
  rcases List.mem_map.mp hmem with ⟨x, hx, hxe⟩
  have hfx := List.find?_eq_none.mp h x hx
  simp [hxe] at hfx

/-- Updating a row's `lastLogin` does not change the store's email
list. -/
theorem emails_updateLastLogin (s : Store) (uid now : Nat) :
    (s.updateLastLogin uid now).emails = s.emails := by
  simp only [Store.updateLastLogin, Store.emails, List.map_map]
  apply List.map_congr_left
  intro v _
  by_cases hb : v.id = uid <;> simp [hb]

/-- C9: store invariant — starting from a store whose rows have pairwise
distinct emails, `register` and `login` preserve that property;
`register` never removes a row and adds at most one; `login` leaves the
row count unchanged; and `getUserById` returns the store unchanged
(`verifySession` does not touch the store at all: it is a function of the
token and the clock only). -/
theorem store_invariant_preserved (cfg : Config) (s : Store)
    (email password : String) (firstName lastName : Option String)
    (uid now : Nat)
    (hinv : Store.emailsUnique s) :
    Store.emailsUnique
        (AuthService.register cfg s email password firstName lastName now).2
      ∧ s.users.length ≤ (AuthService.register cfg s email password
          firstName lastName now).2.users.length
      ∧ (AuthService.register cfg s email password firstName lastName
          now).2.users.length ≤ s.users.length + 1
      ∧ Store.emailsUnique (AuthService.login cfg s email password now).2
      ∧ (AuthService.login cfg s email password now).2.users.length
        = s.users.length
      ∧ (AuthService.getUserById s uid).2 = s := by
  have hreg :
      (AuthService.register cfg s email password firstName lastName now).2
          = s
        ∨ (AuthService.register cfg s email password firstName lastName
            now).2
          = (s.createUser email password firstName lastName now).2
            ∧ s.findUserByEmail email = none := by
    cases hfind : s.findUserByEmail email with
    | some u => left; simp [AuthService.register, hfind]
    | none => right; exact ⟨by simp [AuthService.register, hfind], rfl⟩
  have hlog :
      (AuthService.login cfg s email password now).2 = s
        ∨ ∃ u : User, (AuthService.login cfg s email password now).2
            = s.updateLastLogin u.id now := by
    cases hfind : s.findUserByEmail email with
    | none => left; simp [AuthService.login, hfind]
    | some u =>
      cases hact : u.isActive with
      | false => left; simp [AuthService.login, hfind, hact]
      | true =>
        cases hpw : comparePassword password u.passwordHash with
        | false => left; simp [AuthService.login, hfind, hact, hpw]
        | true =>
          right
          exact ⟨u, by simp [AuthService.login, hfind, hact, hpw]⟩
  have hlogin2 :
      Store.emailsUnique (AuthService.login cfg s email password now).2
        ∧ (AuthService.login cfg s email password now).2.users.length
          = s.users.length := by
    rcases hlog with hsame | ⟨u, hupd⟩
    · rw [hsame]; exact ⟨hinv, rfl⟩
    · rw [hupd]
      constructor
      · show (Store.updateLastLogin s u.id now).emails.Nodup
        rw [emails_updateLastLogin]
        exact hinv
      · simp [Store.updateLastLogin]
  have hreg2 :
      Store.emailsUnique
        (AuthService.register cfg s email password firstName lastName
          now).2
        ∧ s.users.length ≤ (AuthService.register cfg s email password
            firstName lastName now).2.users.length
        ∧ (AuthService.register cfg s email password firstName lastName
            now).2.users.length ≤ s.users.length + 1 := by
    rcases hreg with hsame | ⟨hcreate, hnone⟩
    · rw [hsame]; exact ⟨hinv, Nat.le_refl _, Nat.le_succ _⟩
    · rw [hcreate]
      have hnm := findUserByEmail_none_notMem s email hnone
      refine ⟨?_, ?_, ?_⟩
      · show (Store.createUser s email password firstName lastName
          now).2.emails.Nodup
        simp only [Store.createUser, Store.emails, List.map_append,
          List.map_cons, List.map_nil] at hnm ⊢
        rw [List.nodup_append]
        refine ⟨hinv, List.nodup_singleton _, ?_⟩
        intro a ha hb
        rcases List.mem_singleton.mp hb with rfl
        exact hnm ha
      · simp [Store.createUser]
      · simp [Store.createUser]
  refine ⟨hreg2.1, hreg2.2.1, hreg2.2.2, hlogin2.1, hlogin2.2, ?_⟩
  cases hfind : s.findByPk uid <;> simp [AuthService.getUserById, hfind]

/-- Witness for C9 on the sample store, which has distinct emails. -/
theorem store_invariant_preserved_witness :
    Store.emailsUnique
        (AuthService.register sampleConfig sampleStore
          ("carol@example.com") ("pw3") none none 9).2
      ∧ sampleStore.users.length ≤ (AuthService.register sampleConfig
          sampleStore ("carol@example.com") ("pw3") none none
          9).2.users.length
      ∧ (AuthService.register sampleConfig sampleStore
          ("carol@example.com") ("pw3") none none 9).2.users.length
        ≤ sampleStore.users.length + 1
      ∧ Store.emailsUnique (AuthService.login sampleConfig sampleStore
          ("carol@example.com") ("pw3") 9).2
      ∧ (AuthService.login sampleConfig sampleStore ("carol@example.com")
          ("pw3") 9).2.users.length = sampleStore.users.length
      ∧ (AuthService.getUserById sampleStore 1).2 = sampleStore :=
  store_invariant_preserved sampleConfig sampleStore
    ("carol@example.com") ("pw3") none none 1 9 (by decide)

end KoaAuth
